import Mathlib

/-!
Verification development for the soothe test-execution engine.

This file gives a shallow embedding, in Lean, of the core of the soothe
repository (src/soothe/test.py, src/soothe/test_suite.py, src/soothe/encoder.py,
src/soothe/utils.py) and settles a list of claims about it.  External effects
(the encoder subprocess, the scorer subprocess, the clock, the filesystem) are
supplied as explicit environment values; Python floats are modelled as exact
rationals; Python exceptions are modelled as explicit values that propagate
through the embedded control flow.  All rational values are built with mkRat
and integer arithmetic so that every definition evaluates by kernel reduction.
-/

/-- Embedding of the EncodeTestResult enum (src/soothe/test.py lines 47 to 54). -/
inductive EncodeTestResult
  | NOT_RUN
  | SUCCESS
  | FAIL
  | TIMEOUT
  | ERROR
  deriving DecidableEq, Repr

/-- The value strings of the EncodeTestResult enum members. -/
def EncodeTestResult.value : EncodeTestResult → String
  | .NOT_RUN => "Not Run"
  | .SUCCESS => "Success"
  | .FAIL => "Fail"
  | .TIMEOUT => "Timeout"
  | .ERROR => "Error"

/-- Embedding of the Result dataclass (src/soothe/test.py lines 56 to 66),
with the same field names and the same defaults. -/
structure Result where
  asset_fname : Option String := none
  encoder_name : Option String := none
  encode_time : ℚ := 0
  encode_result : EncodeTestResult := .NOT_RUN
  vmaf_result : EncodeTestResult := .NOT_RUN
  vmaf_score : ℚ := 0
  vmaf_time : ℚ := 0
  deriving DecidableEq, Repr

/-- Python str() of an optional string, as f-string interpolation renders it:
None prints as the text None. -/
def optStr : Option String → String
  | none => "None"
  | some s => s

/-- Left pad a string with zero characters up to length n. -/
def padZeros (n : Nat) (s : String) : String :=
  if n ≤ s.length then s else String.mk (List.replicate (n - s.length) '0') ++ s

/-- Exact addition of two rationals written with mkRat and integer arithmetic,
so that it evaluates by kernel reduction; models the float addition performed
by the source. -/
def qadd (a b : ℚ) : ℚ :=
  mkRat (a.num * (b.den : Int) + b.num * (a.den : Int)) (a.den * b.den)

/-- Fixed point rendering of a nonnegative rational with n digits after the
decimal point, rounding half to even: the model of the Python format
specifier .nf applied at the call sites of Result.__str__, whose arguments
are nonnegative. -/
def formatFixed (n : Nat) (q : ℚ) : String :=
  let den : Int := (q.den : Int)
  let scaledNum : Int := q.num * ((10 ^ n : Nat) : Int)
  let quot : Int := scaledNum / den
  let rem : Int := scaledNum % den
  let rounded : Int :=
    if 2 * rem < den then quot
    else if den < 2 * rem then quot + 1
    else if quot % 2 = 0 then quot else quot + 1
  let m : Nat := rounded.toNat
  let ip : Nat := m / 10 ^ n
  let fp : Nat := m % 10 ^ n
  if n = 0 then toString ip else toString ip ++ "." ++ padZeros n (toString fp)

/-- Embedding of Result.__str__ (src/soothe/test.py lines 68 to 75).  The
local s is built with a trailing space, exactly as in the source, and each
branch inserts one more space before the arrow or the bracket. -/
def Result.render (r : Result) : String :=
  let s := optStr r.encoder_name ++ " — " ++ optStr r.asset_fname ++ " "
  if r.encode_result ≠ EncodeTestResult.SUCCESS then
    s ++ " → Encode " ++ r.encode_result.value
  else if r.vmaf_result ≠ EncodeTestResult.SUCCESS then
    s ++ " → VMAF " ++ r.vmaf_result.value
  else
    s ++ " [" ++ formatFixed 3 (qadd r.encode_time r.vmaf_time) ++ "s] → " ++
      formatFixed 5 r.vmaf_score

/-- Split a character list at every occurrence of sep, keeping empty pieces:
the semantics of the Python str.split method with an explicit separator. -/
def splitCharsOn (sep : Char) : List Char → List (List Char)
  | [] => [[]]
  | c :: rest =>
    let r := splitCharsOn sep rest
    if c = sep then [] :: r
    else
      match r with
      | [] => [[c]]
      | h :: t => (c :: h) :: t

/-- Python split of a string on a one character separator. -/
def pySplit (s : String) (sep : Char) : List String :=
  (splitCharsOn sep s.data).map (fun cs => String.mk cs)

/-- Value of a list of decimal digit characters. -/
def natOfDigits (cs : List Char) : Nat :=
  cs.foldl (fun a c => a * 10 + (c.toNat - 48)) 0

/-- Drop whitespace from both ends of a character list. -/
def trimChars (cs : List Char) : List Char :=
  ((cs.dropWhile Char.isWhitespace).reverse.dropWhile Char.isWhitespace).reverse

/-- Embedding of the Python float constructor on a text argument, for finite
decimal literals: optional surrounding whitespace, optional sign, digits with
an optional decimal point, and an optional decimal exponent.  Returns none
when the text does not parse, which the source observes as a ValueError.  The
value is the exact rational value of the literal; the binary rounding of the
Python float type is abstracted away. -/
def pyFloat (s : String) : Option ℚ :=
  let cs := trimChars s.data
  let signBody : Int × List Char :=
    match cs with
    | '+' :: r => (1, r)
    | '-' :: r => (-1, r)
    | r => (1, r)
  let sgn := signBody.1
  let body := signBody.2
  let mant := body.takeWhile (fun c => c ≠ 'e' ∧ c ≠ 'E')
  let expTail := body.dropWhile (fun c => c ≠ 'e' ∧ c ≠ 'E')
  let expVal : Option Int :=
    match expTail with
    | [] => some 0
    | _ :: t =>
      let st : Int × List Char :=
        match t with
        | '+' :: r => (1, r)
        | '-' :: r => (-1, r)
        | r => (1, r)
      if !st.2.isEmpty && st.2.all Char.isDigit then
        some (st.1 * (natOfDigits st.2 : Int))
      else none
  let ip := mant.takeWhile (fun c => c ≠ '.')
  let fpTail := mant.dropWhile (fun c => c ≠ '.')
  let mantVal : Option (Nat × Nat) :=
    match fpTail with
    | [] =>
      if !ip.isEmpty && ip.all Char.isDigit then some (natOfDigits ip, 0) else none
    | _ :: fp =>
      if (!ip.isEmpty || !fp.isEmpty) && ip.all Char.isDigit && fp.all Char.isDigit then
        some (natOfDigits ip * 10 ^ fp.length + natOfDigits fp, fp.length)
      else none
  match mantVal, expVal with
  | some (n, k), some e =>
    let e2 : Int := e - (k : Int)
    if 0 ≤ e2 then some (mkRat (sgn * (n : Int) * ((10 ^ e2.toNat : Nat) : Int)) 1)
    else some (mkRat (sgn * (n : Int)) (10 ^ (-e2).toNat))
  | _, _ => none

/-- Exception classes crossing the boundaries modelled here.  The bare except
clauses of the source catch every class; the TimeoutExpired clause catches
only timeoutExpired. -/
inductive PyExn
  | timeoutExpired
  | otherError
  | nameError
  deriving DecidableEq, Repr

/-- Behavior of one external call: it either returns or raises. -/
inductive CallBehavior
  | returns
  | raises (e : PyExn)
  deriving DecidableEq, Repr

/-- Embedding of the Params dataclass of src/soothe/test.py lines 35 to 45,
with the asset tuple flattened into the three string components the code
reads from it. -/
structure TestParams where
  encoder_name : String
  asset_list_name : String
  asset_name : String
  asset_filename : String
  vmaf_binary : String
  resources_dir : String
  output_dir : String
  timeout : Nat
  keep_files : Bool := false
  verbose : Bool := false
  deriving DecidableEq, Repr

/-- External behavior supplied to one execution of Test.run: what the encoder
call does, what the scorer call does and returns, the clock deltas, and
whether the encode attempt left the output file on disk. -/
structure TestEnv where
  encodeCall : CallBehavior
  encodeElapsed : ℚ
  outputCreated : Bool
  scorerCall : CallBehavior
  scorerOutput : String
  scorerElapsed : ℚ
  deriving DecidableEq, Repr

/-- Embedding of os.path.join on the relative components used by the code,
composed with normalize_path on a POSIX platform, where it is the identity
(src/soothe/utils.py lines 146 to 150). -/
def joinPath (a b : String) : String := a ++ "/" ++ b

/-- The default of the timeout parameter of run_command_with_output
(src/soothe/utils.py line 100): None, meaning proc.communicate waits without
any bound. -/
def runCommandWithOutputDefaultTimeout : Option Nat := none

/-- One subprocess invocation of the quality scorer: the argument vector and
the timeout it carries. -/
structure ScorerInvocation where
  command : List String
  timeout : Option Nat
  deriving DecidableEq, Repr

/-- Everything observable from one execution of Test.run: the final Result
record, the exception propagating out of run if any, whether the output file
exists afterwards, and the scorer invocation issued, if any. -/
structure RunOutcome where
  result : Result
  raised : Option PyExn
  outputFileExists : Bool
  scorerInvoked : Option ScorerInvocation
  deriving DecidableEq, Repr

/-- Embedding of Test.run (src/soothe/test.py lines 83 to 148), line by line:

* the output and input paths are resolved as in lines 86 to 96;
* lines 98 and 99 record the asset filename and the encoder name;
* the encode block (lines 101 to 117): on a raise, the matching except clause
  stores TIMEOUT or ERROR and re-raises, and the finally clause on line 117
  then unconditionally overwrites encode_result with SUCCESS before the
  exception leaves run; on a normal return the elapsed time is recorded and
  the finally clause stores SUCCESS;
* the score block (lines 119 to 143) runs under the line 119 test on
  encode_result; on a raise of the scorer call the except clause stores ERROR
  and re-raises, and the finally clause then reads the local output, which was
  never bound on that path, so a NameError propagates out of run instead; on
  a normal return, the finally clause splits the output on the colon, takes
  element one and feeds it to float, storing the score and SUCCESS, or FAIL
  when that raises IndexError or ValueError;
* the cleanup (lines 145 to 148) is reached only when no exception is
  propagating: unless keep_files is set, the output file is removed if it
  exists. -/
def testRun (p : TestParams) (env : TestEnv) (r0 : Result) : RunOutcome :=
  let output_filepath := joinPath p.output_dir (p.asset_name ++ ".y4m")
  let input_filepath := joinPath (joinPath p.resources_dir p.asset_list_name) p.asset_filename
  let r1 := { r0 with asset_fname := some p.asset_filename,
                      encoder_name := some p.encoder_name }
  match env.encodeCall with
  | .raises e =>
    let r2 := { r1 with encode_result :=
      if e = PyExn.timeoutExpired then EncodeTestResult.TIMEOUT else EncodeTestResult.ERROR }
    let r3 := { r2 with encode_result := EncodeTestResult.SUCCESS }
    { result := r3, raised := some e,
      outputFileExists := env.outputCreated, scorerInvoked := none }
  | .returns =>
    let r2 := { r1 with encode_time := env.encodeElapsed }
    let r3 := { r2 with encode_result := EncodeTestResult.SUCCESS }
    if r3.encode_result = EncodeTestResult.SUCCESS then
      let cmd := [p.vmaf_binary, "--quiet", "--reference", input_filepath,
                  "--distorted", output_filepath]
      let inv : ScorerInvocation :=
        { command := cmd, timeout := runCommandWithOutputDefaultTimeout }
      match env.scorerCall with
      | .raises _ =>
        let r4 := { r3 with vmaf_result := EncodeTestResult.ERROR }
        { result := r4, raised := some PyExn.nameError,
          outputFileExists := env.outputCreated, scorerInvoked := some inv }
      | .returns =>
        let r4 := { r3 with vmaf_time := env.scorerElapsed }
        let r5 :=
          match (pySplit env.scorerOutput ':').get? 1 with
          | none => { r4 with vmaf_result := EncodeTestResult.FAIL }
          | some field =>
            match pyFloat field with
            | none => { r4 with vmaf_result := EncodeTestResult.FAIL }
            | some v => { r4 with vmaf_score := v, vmaf_result := EncodeTestResult.SUCCESS }
        let fileAfter := if !p.keep_files then false else env.outputCreated
        { result := r5, raised := none,
          outputFileExists := fileAfter, scorerInvoked := some inv }
    else
      let fileAfter := if !p.keep_files then false else env.outputCreated
      { result := r3, raised := none,
        outputFileExists := fileAfter, scorerInvoked := none }

/-- State accumulated by the engine of TestSuite._run_test_suite_in_parallel:
the collected results, in completion order, and whether pool.terminate has
been called. -/
structure EngineState where
  test_results : List Result
  terminated : Bool
  deriving DecidableEq, Repr

/-- The engine state before any job completes. -/
def engineInit : EngineState := { test_results := [], terminated := false }

/-- Embedding of the completion callback of TestSuite._run_test_suite_in_parallel
(src/soothe/test_suite.py lines 92 to 96): the result is printed, then
pool.terminate is called whenever fail_fast is set, without inspecting the
result, and then the result is appended. -/
def engineCallback (fail_fast : Bool) (st : EngineState) (r : Result) : EngineState :=
  { test_results := st.test_results ++ [r],
    terminated := st.terminated || fail_fast }

/-- Embedding of TestSuite._run_worker (src/soothe/test_suite.py lines 80 to
84): the test runs on a fresh Result; an exception from Test.run propagates
out of the worker function. -/
def runWorker (p : TestParams) (env : TestEnv) : RunOutcome :=
  testRun p env {}

/-- A filesystem abstraction: the existing file paths and the existing
directory paths, each in creation order. -/
structure FS where
  files : List String
  dirs : List String
  deriving DecidableEq, Repr

/-- The empty filesystem. -/
def fsEmpty : FS := { files := [], dirs := [] }

/-- Whether one path leads another, character by character. -/
def listLeadsWith : List Char → List Char → Bool
  | [], _ => true
  | _ :: _, [] => false
  | a :: as, b :: bs => a = b && listLeadsWith as bs

/-- Whether path p is the directory d itself or lies below it. -/
def underDir (d p : String) : Bool :=
  p == d || listLeadsWith (d ++ "/").data p.data

/-- Whether a path exists, as os.path.exists reports it. -/
def FS.hasPath (fs : FS) (p : String) : Bool :=
  fs.files.contains p || fs.dirs.contains p

/-- Create a file at path p. -/
def FS.addFile (fs : FS) (p : String) : FS :=
  if fs.files.contains p then fs else { fs with files := fs.files ++ [p] }

/-- Remove the file at path p if present, as os.remove does. -/
def FS.removeFile (fs : FS) (p : String) : FS :=
  { fs with files := fs.files.filter (fun q => q ≠ p) }

/-- Remove the directory d and everything below it, as shutil.rmtree does. -/
def FS.rmtree (fs : FS) (d : String) : FS :=
  { files := fs.files.filter (fun q => !underDir d q),
    dirs := fs.dirs.filter (fun q => !underDir d q) }

/-- Create the directory d, as os.makedirs does at the call site, where d was
just removed if it existed. -/
def FS.makedirs (fs : FS) (d : String) : FS :=
  if fs.dirs.contains d then fs else { fs with dirs := fs.dirs ++ [d] }

/-- Filesystem effect of one completed worker: after Test.run, the output
file of the test either exists or does not, as reported by the run outcome. -/
def workerFSEffect (p : TestParams) (o : RunOutcome) (fs : FS) : FS :=
  let path := joinPath p.output_dir (p.asset_name ++ ".y4m")
  if o.outputFileExists then fs.addFile path else fs.removeFile path

/-- Embedding of the submit and collect loop of
TestSuite._run_test_suite_in_parallel (src/soothe/test_suite.py lines 86 to
106) over one admissible schedule, in which jobs complete in submission
order, one at a time.  A job whose worker raised produces no callback,
because apply_async is given a callback but no error_callback, so its
exception is stored in the never collected AsyncResult and its returned
value is lost; the pool itself keeps running.  After pool.terminate has been
called, jobs that have not started never run. -/
def runPool (fail_fast : Bool) : List (TestParams × TestEnv) → EngineState → FS → EngineState × FS
  | [], st, fs => (st, fs)
  | (p, env) :: rest, st, fs =>
    if st.terminated then (st, fs)
    else
      let o := runWorker p env
      let fs2 := workerFSEffect p o fs
      match o.raised with
      | some _ => runPool fail_fast rest st fs2
      | none => runPool fail_fast rest (engineCallback fail_fast st o.result) fs2

/-- Embedding of the Params dataclass of src/soothe/test_suite.py lines 35 to
48.  Each asset is the triple of its asset list name, its name and its
filename, the three components the code reads. -/
structure SuiteParams where
  name : String
  jobs : Nat
  assets : List (String × String × String)
  timeout : Nat
  fail_fast : Bool
  quiet : Bool
  vmaf_binary : String
  resources_dir : String
  output_dir : String
  keep_files : Bool := false
  verbose : Bool := false
  deriving DecidableEq, Repr

/-- State of one TestSuite object: its params object, the output_dir field
computed by the constructor, and the time and num_results fields. -/
structure TestSuiteState where
  params : SuiteParams
  output_dir : String
  time : ℚ
  num_results : Nat
  deriving DecidableEq, Repr

/-- Embedding of TestSuite.__init__ (src/soothe/test_suite.py lines 56 to
60): the output_dir field is the configured output directory joined once with
the suite name.  TestSuite.run never reads this field again. -/
def TestSuiteState.init (p : SuiteParams) : TestSuiteState :=
  { params := p, output_dir := joinPath p.output_dir p.name,
    time := 0, num_results := 0 }

/-- Embedding of TestSuite._generate_tests (src/soothe/test_suite.py lines 62
to 78): one TestParams per asset, reading output_dir from the suite params at
generation time. -/
def generateTests (ts : TestSuiteState) (encoderName : String) : List TestParams :=
  ts.params.assets.map (fun a =>
    { encoder_name := encoderName,
      asset_list_name := a.1,
      asset_name := a.2.1,
      asset_filename := a.2.2,
      vmaf_binary := ts.params.vmaf_binary,
      resources_dir := ts.params.resources_dir,
      output_dir := ts.params.output_dir,
      timeout := ts.params.timeout,
      keep_files := ts.params.keep_files,
      verbose := ts.params.verbose })

/-- Embedding of Encoder.check (src/soothe/encoder.py lines 55 to 63): when
the encoder declares a nonempty binary, availability is whether the which
lookup, whose result is supplied by the environment, found it on the path;
otherwise the check returns true. -/
def encoderCheck (binary : String) (whichResult : Option String) : Bool :=
  if binary ≠ "" then whichResult.isSome else true

/-- Embedding of TestSuite.run (src/soothe/test_suite.py lines 108 to 127).
The availability check result, the per job environments and the measured
elapsed time are supplied by the caller.  When the check failed, run prints a
skip notice and returns at once.  Otherwise line 118 reassigns
params.output_dir to the join of its current value with the suite name, the
directory at that new path is removed if it exists and recreated, the tests
are generated, and the pool runs them; finally the time and num_results
fields are stored. -/
def testSuiteRun (ts : TestSuiteState) (available : Bool) (encoderName : String)
    (envs : List TestEnv) (elapsed : ℚ) (fs : FS) : TestSuiteState × FS :=
  if !available then (ts, fs)
  else
    let newOut := joinPath ts.params.output_dir ts.params.name
    let ts2 := { ts with params := { ts.params with output_dir := newOut } }
    let fs2 := if fs.hasPath newOut then fs.rmtree newOut else fs
    let fs3 := fs2.makedirs newOut
    let tests := generateTests ts2 encoderName
    let stfs := runPool ts2.params.fail_fast (tests.zip envs) engineInit fs3
    ({ ts2 with time := elapsed, num_results := stfs.1.test_results.length }, stfs.2)

/-- Concrete Job parameters used by the concrete evaluations below. -/
def pExample : TestParams :=
  { encoder_name := "x264", asset_list_name := "lst", asset_name := "foo",
    asset_filename := "foo.y4m", vmaf_binary := "vmaf", resources_dir := "res",
    output_dir := "out/s", timeout := 30, keep_files := false, verbose := false }

/-- Environment in which every external call succeeds: the encode returns and
creates the output file, the scorer returns a well formed score line. -/
def envOk : TestEnv :=
  { encodeCall := .returns, encodeElapsed := 1, outputCreated := true,
    scorerCall := .returns, scorerOutput := "VMAF score:87.65432", scorerElapsed := 2 }

/-- Environment in which the encode call raises TimeoutExpired after having
created the output file. -/
def envEncTimeout : TestEnv := { envOk with encodeCall := .raises .timeoutExpired }

/-- Environment in which the encode call raises an exception other than
TimeoutExpired after having created the output file. -/
def envEncError : TestEnv := { envOk with encodeCall := .raises .otherError }

/-- Environment in which the scorer subprocess call raises. -/
def envScorerRaise : TestEnv := { envOk with scorerCall := .raises .otherError }

/-- Environment in which the scorer returns an unparsable output line. -/
def envGarbage : TestEnv := { envOk with scorerOutput := "garbage" }

/-- Claim C1, evaluation of the code at the failing inputs.  When the encode
call raises TimeoutExpired, and when it raises any other exception, the
exception propagates out of Test.run, but the encode outcome held by the Job
Result at that moment is SUCCESS, not TIMEOUT or ERROR: the finally clause at
src/soothe/test.py line 117 unconditionally overwrites the terminal outcome
stored by the except handlers before the exception leaves run.  This
contradicts the claim, which requires TIMEOUT or ERROR to be held, never
SUCCESS, on a raising path. -/
theorem c1_encode_outcome_overwritten :
    ((testRun pExample envEncTimeout {}).raised = some PyExn.timeoutExpired ∧
      (testRun pExample envEncTimeout {}).result.encode_result = EncodeTestResult.SUCCESS) ∧
    ((testRun pExample envEncError {}).raised = some PyExn.otherError ∧
      (testRun pExample envEncError {}).result.encode_result = EncodeTestResult.SUCCESS) := by
  decide

/-- Claim C10: on every execution of Test.run in which the encode call raises,
the encode duration field of the Job Result keeps the initial value 0.0 of the
fresh Result the worker passes in, because the elapsed time assignment on
line 109 of src/soothe/test.py is reached only when the encode call returns
normally; and the exception propagates. -/
theorem c10_encode_time_not_recorded_on_raise (p : TestParams) (env : TestEnv) (e : PyExn)
    (h : env.encodeCall = CallBehavior.raises e) :
    (testRun p env {}).result.encode_time = 0 ∧ (testRun p env {}).raised = some e := by
  obtain ⟨ec, ee, oc, sc, so, se⟩ := env
  have h2 : ec = CallBehavior.raises e := h
  subst h2
  exact ⟨rfl, rfl⟩

/-- Claim C10, witness: the theorem applied to a concrete raising encode. -/
theorem c10_encode_time_not_recorded_on_raise_witness :
    (testRun pExample envEncTimeout {}).result.encode_time = 0 ∧
    (testRun pExample envEncTimeout {}).raised = some PyExn.timeoutExpired :=
  c10_encode_time_not_recorded_on_raise pExample envEncTimeout PyExn.timeoutExpired rfl

/-- Claim C4, evaluation of the code at the failing inputs.  With keep_files
false, when the encode call raises after creating the output file, and when
the scorer call raises, Test.run propagates an exception and the output file
still exists afterwards: the cleanup at src/soothe/test.py lines 145 to 148
is reached only on the normal return path, contradicting the claim that the
file is gone on every exit path.  On the normal return path the claim holds:
with keep_files false the file is removed, and with keep_files true it
persists. -/
theorem c4_cleanup_skipped_on_raising_paths :
    ((testRun pExample envEncTimeout {}).raised.isSome = true ∧
      (testRun pExample envEncTimeout {}).outputFileExists = true) ∧
    ((testRun pExample envScorerRaise {}).raised.isSome = true ∧
      (testRun pExample envScorerRaise {}).outputFileExists = true) ∧
    ((testRun pExample envOk {}).raised = none ∧
      (testRun pExample envOk {}).outputFileExists = false) ∧
    ((testRun { pExample with keep_files := true } envOk {}).raised = none ∧
      (testRun { pExample with keep_files := true } envOk {}).outputFileExists = true) := by
  decide

/-- Claim C5, evaluation of the code at the failing input.  The scorer
invocation issued by Test.run (src/soothe/test.py lines 119 to 133) carries
timeout None: the call to run_command_with_output passes only command and
verbose, so the timeout parameter keeps its default None
(src/soothe/utils.py line 100) and proc.communicate waits without bound,
contradicting the claim that every scorer invocation carries a finite
wall clock timeout. -/
theorem c5_scorer_invocation_has_no_timeout :
    (testRun pExample envOk {}).scorerInvoked =
      some { command := ["vmaf", "--quiet", "--reference", "res/lst/foo.y4m",
                         "--distorted", "out/s/foo.y4m"],
             timeout := none } := by
  decide

/-- Claim C7: parsing the scorer output line VMAF score:87.65432 stores score
outcome SUCCESS and the exact score value 87.65432, which in particular lies
within 1e-5 of 87.65432; parsing the line garbage, whose split on the colon
has no element one, stores score outcome FAIL without raising and leaves the
score value at its default 0.0. -/
theorem c7_score_parsing :
    ((testRun pExample envOk {}).result.vmaf_result = EncodeTestResult.SUCCESS ∧
      (testRun pExample envOk {}).result.vmaf_score = (8765432 : ℚ) / 100000 ∧
      (testRun pExample envOk {}).raised = none) ∧
    ((testRun pExample envGarbage {}).result.vmaf_result = EncodeTestResult.FAIL ∧
      (testRun pExample envGarbage {}).result.vmaf_score = 0 ∧
      (testRun pExample envGarbage {}).raised = none) := by
  have hs : (testRun pExample envOk {}).result.vmaf_score = mkRat 8765432 100000 := by
    decide
  refine ⟨⟨by decide, ?_, by decide⟩, by decide, by decide, by decide⟩
  rw [hs, Rat.mkRat_eq_div]
  norm_num

/-- A Job Result whose encode and score outcomes are both SUCCESS, with
encode time 1s, score time 2s and score 87.65432. -/
def resultSuccessExample : Result :=
  { asset_fname := some "foo.y4m", encoder_name := some "x264",
    encode_time := 1, encode_result := .SUCCESS,
    vmaf_result := .SUCCESS, vmaf_score := mkRat 8765432 100000, vmaf_time := 2 }

/-- A Job Result whose encode outcome is TIMEOUT. -/
def resultTimeoutExample : Result :=
  { asset_fname := some "foo.y4m", encoder_name := some "x264",
    encode_result := .TIMEOUT }

/-- Claim C6, counterexample: the rendering of a fully successful Job Result
is not the single spaced string the claim requires; the actual rendering has
two spaces after the asset filename, because Result.__str__ builds its local
s with a trailing space (src/soothe/test.py line 69) and the success branch
inserts one more space before the bracket (line 75). -/
theorem c6_render_counterexample :
    Result.render resultSuccessExample ≠ "x264 — foo.y4m [3.000s] → 87.65432" ∧
    Result.render resultSuccessExample = "x264 — foo.y4m  [3.000s] → 87.65432" := by
  decide

/-- Claim C6, amended: the textual rendering of a Job Result whose encode and
score outcomes are both SUCCESS is the encoder name, an em dash, the asset
filename, then two spaces, then the bracketed total seconds, the arrow and
the score; for a result whose encode outcome is not SUCCESS it is the same
head followed, after two spaces, by the arrow and Encode and the outcome; and
for one whose score outcome alone is not SUCCESS, by the arrow and VMAF and
the outcome. -/
theorem c6_render_amended (r : Result) (enc fname : String)
    (he : r.encoder_name = some enc) (hf : r.asset_fname = some fname) :
    (r.encode_result ≠ EncodeTestResult.SUCCESS →
      Result.render r =
        enc ++ " — " ++ fname ++ " " ++ " → Encode " ++ r.encode_result.value) ∧
    (r.encode_result = EncodeTestResult.SUCCESS →
      r.vmaf_result ≠ EncodeTestResult.SUCCESS →
      Result.render r =
        enc ++ " — " ++ fname ++ " " ++ " → VMAF " ++ r.vmaf_result.value) ∧
    (r.encode_result = EncodeTestResult.SUCCESS →
      r.vmaf_result = EncodeTestResult.SUCCESS →
      Result.render r =
        enc ++ " — " ++ fname ++ " " ++ " [" ++
          formatFixed 3 (qadd r.encode_time r.vmaf_time) ++ "s] → " ++
          formatFixed 5 r.vmaf_score) := by
  refine ⟨fun h1 => ?_, fun h1 h2 => ?_, fun h1 h2 => ?_⟩
  · simp [Result.render, optStr, he, hf, h1, String.append_assoc]
  · simp [Result.render, optStr, he, hf, h1, h2, String.append_assoc]
  · simp [Result.render, optStr, he, hf, h1, h2, String.append_assoc]

/-- Claim C6, witness for the amended theorem at a concrete failed encode. -/
theorem c6_render_amended_witness :
    Result.render resultTimeoutExample =
      "x264" ++ " — " ++ "foo.y4m" ++ " " ++ " → Encode " ++
        EncodeTestResult.value EncodeTestResult.TIMEOUT :=
  (c6_render_amended resultTimeoutExample "x264" "foo.y4m" rfl rfl).1 (by decide)

/-- Claim C2, evaluation of the code at the failing input.  With fail_fast
enabled and two jobs whose workers both return fully successful results, the
first collected Job Result, whose encode and score outcomes are both SUCCESS,
already triggers pool.terminate: the callback at src/soothe/test_suite.py
lines 92 to 96 never inspects the outcome before terminating.  The second job
is never scheduled, so only one result is collected, contradicting the claim
that an all SUCCESS result does not trigger cancellation. -/
theorem c2_fail_fast_fires_on_success_result :
    (runPool true [(pExample, envOk), (pExample, envOk)] engineInit fsEmpty).1.terminated = true ∧
    (runPool true [(pExample, envOk), (pExample, envOk)] engineInit fsEmpty).1.test_results.map
        (fun r => (r.encode_result, r.vmaf_result)) =
      [(EncodeTestResult.SUCCESS, EncodeTestResult.SUCCESS)] := by
  decide

/-- Claim C3, evaluation of the code at the failing input.  A batch of two
jobs runs with fail fast disabled; the second worker raises from its encode.
The engine collects only one Job Result: apply_async is given no
error_callback, so the raised job fires no callback and its partial result is
discarded, contradicting the claim that exactly N results are collected with
one result for each raised job.  The pool itself is not terminated and keeps
running. -/
theorem c3_raised_worker_result_lost :
    (runPool false [(pExample, envOk), (pExample, envEncError)] engineInit fsEmpty).1.test_results.length = 1 ∧
    (runPool false [(pExample, envOk), (pExample, envEncError)] engineInit fsEmpty).1.terminated = false := by
  decide

/-- Concrete suite parameters: output directory out, suite name s, one asset,
keep_files set so that a successful run leaves its output file in place. -/
def suiteExample : SuiteParams :=
  { name := "s", jobs := 1, assets := [("lst", "foo", "foo.y4m")], timeout := 30,
    fail_fast := false, quiet := false, vmaf_binary := "vmaf",
    resources_dir := "res", output_dir := "out", keep_files := true, verbose := false }

/-- First invocation of TestSuite.run on the suite of suiteExample. -/
def c8run1 : TestSuiteState × FS :=
  testSuiteRun (TestSuiteState.init suiteExample) true "x264" [envOk] 1 fsEmpty

/-- Second, consecutive invocation of TestSuite.run on the same TestSuite. -/
def c8run2 : TestSuiteState × FS :=
  testSuiteRun c8run1.1 true "x264" [envOk] 1 c8run1.2

/-- Claim C8, evaluation of the code at the failing input.  Two consecutive
invocations of TestSuite.run on the same TestSuite do not target the same
per suite output directory: line 118 of src/soothe/test_suite.py reassigns
params.output_dir to the join of its current value with the suite name on
every invocation, so the first run targets out/s and the second targets
out/s/s, and the file out/s/foo.y4m created by the first run is still visible
after the second run, contradicting the claim that the directory is joined
once, that the path does not change between invocations, and that no file of
the first run remains visible to the second. -/
theorem c8_output_dir_drifts_across_runs :
    c8run1.1.params.output_dir = "out/s" ∧
    c8run2.1.params.output_dir = "out/s/s" ∧
    c8run2.1.params.output_dir ≠ c8run1.1.params.output_dir ∧
    c8run1.2.files.contains "out/s/foo.y4m" = true ∧
    c8run2.2.files.contains "out/s/foo.y4m" = true ∧
    c8run2.2.files.contains "out/s/s/foo.y4m" = true := by
  decide

/-- Claim C9: when the availability check of the encoder returns false,
TestSuite.run returns at once after printing a skip notice: the suite state,
including its result count, and the filesystem are returned unchanged, no
output directory is created or deleted, and no job runs
(src/soothe/test_suite.py lines 114 to 116). -/
theorem c9_unavailable_encoder_skips (ts : TestSuiteState) (encoderName : String)
    (envs : List TestEnv) (elapsed : ℚ) (fs : FS)
    (binary : String) (whichResult : Option String)
    (h : encoderCheck binary whichResult = false) :
    testSuiteRun ts (encoderCheck binary whichResult) encoderName envs elapsed fs = (ts, fs) := by
  rw [h]
  rfl

/-- Claim C9, witness: a fresh suite, an encoder whose binary is not found on
the path; the run returns the fresh state, whose result count is zero, and
the untouched filesystem. -/
theorem c9_unavailable_encoder_skips_witness :
    testSuiteRun (TestSuiteState.init suiteExample) (encoderCheck "vmaf" none) "x264" [] 0 fsEmpty =
      (TestSuiteState.init suiteExample, fsEmpty) ∧
    (TestSuiteState.init suiteExample).num_results = 0 :=
  ⟨c9_unavailable_encoder_skips (TestSuiteState.init suiteExample) "x264" [] 0 fsEmpty
    "vmaf" none (by decide), rfl⟩
